import Mathlib

/-!
Shallow embedding of the p0tion server-side ceremony control plane:
the queue coordinator (`coordinate`, `coordinateCeremonyParticipant`)
and the contribution verifier (`verifycontribution`), together with
theorems checking the documented properties against the embedded code.

Timestamps and durations are modelled as rationals (JavaScript numbers
on integral millisecond values), counters as naturals, and the string
enumerations of the actions package as plain strings, mirroring the
JavaScript string comparisons of the source.
-/

/- Modelled from the spec: the `ParticipantStatus` string enum lives in the
actions package, which is not under src/; the spec (section 3) fixes its
member names. -/
namespace ParticipantStatus

def WAITING : String := "WAITING"

def READY : String := "READY"

def CONTRIBUTING : String := "CONTRIBUTING"

def CONTRIBUTED : String := "CONTRIBUTED"

def DONE : String := "DONE"

def FINALIZING : String := "FINALIZING"

def TIMEDOUT : String := "TIMEDOUT"

end ParticipantStatus

/- Modelled from the spec: the `ParticipantContributionStep` string enum lives
in the actions package, which is not under src/; the spec (section 3) fixes its
member names. -/
namespace ParticipantContributionStep

def DOWNLOADING : String := "DOWNLOADING"

def COMPUTING : String := "COMPUTING"

def UPLOADING : String := "UPLOADING"

def VERIFYING : String := "VERIFYING"

def COMPLETED : String := "COMPLETED"

end ParticipantContributionStep

/- Modelled from the spec: the `CeremonyState` string enum lives in the
actions package, which is not under src/; the spec (section 3) fixes its
member names. -/
namespace CeremonyState

def SCHEDULED : String := "SCHEDULED"

def OPENED : String := "OPENED"

def PAUSED : String := "PAUSED"

def CLOSED : String := "CLOSED"

def FINALIZED : String := "FINALIZED"

end CeremonyState

/-- Modelled from the spec: the genesis zkey index constant of the constants
module is not under src/; the spec (section 8, scenario 1) fixes it to the
five-character string of zeros. -/
def firstZkeyIndex : String := "00000"

/-- Modelled from the spec: the `finalContributionIndex` constant of the
actions package is not under src/; the spec (section 4.2, step 2) fixes it to
the literal token `final`. -/
def finalContributionIndex : String := "final"

/-- One step of the `while (index.length < firstZkeyIndex.length)` padding loop
of `formatZkeyIndex`; the fuel bounds the number of iterations, which the
source loop bounds by growing the string by one character per iteration. -/
def padWithZeros (fuel : Nat) (index : String) : String :=
  match fuel with
  | 0 => index
  | fuel + 1 =>
    if index.length < firstZkeyIndex.length then padWithZeros fuel ("0" ++ index)
    else index

/-- Embedding of `formatZkeyIndex` (src/unnamed/part_000, lines 141-149):
left-pad the decimal representation of `progress` with zeros up to the length
of the genesis index. -/
def formatZkeyIndex (progress : Nat) : String :=
  padWithZeros firstZkeyIndex.length (toString progress)

/-- JavaScript `s.includes(pat)`: `pat` occurs as a contiguous substring of
`s`. -/
def stringIncludes (s pat : String) : Bool :=
  decide (List.IsInfix pat.data s.data)

/-- One entry of `participant.contributions`: partial contribution data.
Absent JavaScript fields are modelled as the falsy values of their types
(empty string, zero), matching the truthiness tests of the source. -/
structure ContributionEntry where
  hash : String
  computationTime : ℚ
  doc : String
deriving DecidableEq

/-- Participant document data (spec section 3; fields read and written by the
coordinator and the verifier). -/
structure Participant where
  status : String
  contributionStep : String
  contributionProgress : Nat
  contributions : List ContributionEntry
  contributionStartedAt : ℚ
  verificationStartedAt : ℚ
  lastUpdated : ℚ
deriving DecidableEq

/-- The embedded `waitingQueue` of a circuit document. -/
structure WaitingQueue where
  contributors : List String
  currentContributor : String
  completedContributions : Nat
  failedContributions : Nat
deriving DecidableEq

/-- The embedded `avgTimings` of a circuit document. -/
structure AvgTimings where
  contributionComputation : ℚ
  fullContribution : ℚ
  verifyCloudFunction : ℚ
deriving DecidableEq

/-- Circuit document data used by the verifier (`pfx` embeds the circuit
document field named after the circuit name, used to build filenames). -/
structure Circuit where
  waitingQueue : WaitingQueue
  pfx : String
  avgTimings : AvgTimings
  instanceId : String
deriving DecidableEq

/-- Ceremony document data used by the verifier. -/
structure Ceremony where
  state : String
deriving DecidableEq

/-- The slice of the Store the coordinator touches: the participant documents
of the ceremony (association list keyed by participant id) and the circuit
document under coordination (its waiting queue and its `lastUpdated`). -/
structure Store where
  participants : List (String × Participant)
  queue : WaitingQueue
  circuitLastUpdated : ℚ
deriving DecidableEq

/-- Apply a Firestore participant-document update: rewrite the entry with the
given id in place. -/
def updateParticipant (store : Store) (pid : String) (f : Participant → Participant) : Store :=
  { store with
      participants := store.participants.map fun kv => if kv.1 = pid then (kv.1, f kv.2) else kv }

/-- Read a participant document by id. -/
def lookupParticipant (store : Store) (pid : String) : Option Participant :=
  store.participants.lookup pid

/-- The atomic batch committed by the single-participant branch of `coordinate`
(src/unnamed/part_002, lines 135-148 and 187-198): the conditional
`contributionStep` update, the unconditional `status`/`contributionStartedAt`
update, and the circuit waiting-queue replacement. -/
def singleCoordinationBatch (store : Store) (pid : String) (now : ℚ)
    (newContributors : List String)
    (newCurrentContributorId newParticipantStatus newContributionStep : String) : Store :=
  let store1 :=
    if newContributionStep != "" then
      updateParticipant store pid fun p =>
        { p with contributionStep := newContributionStep, lastUpdated := now }
    else store
  let store2 := updateParticipant store1 pid fun p =>
    { p with
        status := newParticipantStatus
        contributionStartedAt :=
          if newParticipantStatus == ParticipantStatus.CONTRIBUTING then now else 0
        lastUpdated := now }
  { store2 with
      queue := { store.queue with
                  contributors := newContributors
                  currentContributor := newCurrentContributorId }
      circuitLastUpdated := now }

/-- Embedding of `coordinate` (src/unnamed/part_002, lines 67-201).
`pStatus` and `pStep` are the `status` and `contributionStep` fields of the
participant snapshot passed by the trigger; `ceremonyId` is the optional
fourth argument. The returned Store is the state after the atomic batch
commit. -/
def coordinate (pid pStatus pStep : String) (isSingleParticipantCoordination : Bool)
    (ceremonyId : Option String) (now : ℚ) (store : Store) : Store :=
  let waitingQueue := store.queue
  let contributors := waitingQueue.contributors
  let currentContributor := waitingQueue.currentContributor
  let noCurrentContributor := currentContributor == ""
  let noContributorsInWaitingQueue := contributors.isEmpty
  let emptyWaitingQueue := noCurrentContributor && noContributorsInWaitingQueue
  let participantIsNotCurrentContributor := currentContributor != pid
  let participantIsCurrentContributor := currentContributor == pid
  let participantIsReady := pStatus == ParticipantStatus.READY
  let participantResumingAfterTimeoutExpiration :=
    participantIsCurrentContributor && participantIsReady
  let participantCompletedOneOrAllContributions :=
    (pStatus == ParticipantStatus.CONTRIBUTED || pStatus == ParticipantStatus.DONE) &&
      pStep == ParticipantContributionStep.COMPLETED
  if isSingleParticipantCoordination then
    if emptyWaitingQueue then
      -- Scenario (A): promote the participant on an empty queue.
      singleCoordinationBatch store pid now (contributors ++ [pid]) pid
        ParticipantStatus.CONTRIBUTING ParticipantContributionStep.DOWNLOADING
    else if participantResumingAfterTimeoutExpiration then
      -- Scenario (A), resume: newCurrentContributorId keeps its "" initializer.
      singleCoordinationBatch store pid now contributors ""
        ParticipantStatus.CONTRIBUTING ParticipantContributionStep.DOWNLOADING
    else if participantIsNotCurrentContributor then
      -- Scenario (B): enqueue behind the current contributor.
      singleCoordinationBatch store pid now (contributors ++ [pid]) currentContributor
        ParticipantStatus.WAITING ""
    else
      -- No scenario matched: the batch still runs with the "" initializers.
      singleCoordinationBatch store pid now contributors "" "" ""
  else if participantIsCurrentContributor && participantCompletedOneOrAllContributions &&
      ceremonyId.isSome then
    -- Scenario (C): shift the head off the waiting queue.
    let newContributors := contributors.tail
    match newContributors.head? with
    | some newCurrentContributorId =>
      -- Step (C.1): pass the baton to the new head.
      let store1 := updateParticipant store newCurrentContributorId fun p =>
        { p with
            status := ParticipantStatus.CONTRIBUTING
            contributionStep := ParticipantContributionStep.DOWNLOADING
            contributionStartedAt := now
            lastUpdated := now }
      { store1 with
          queue := { waitingQueue with
                      contributors := newContributors
                      currentContributor := newCurrentContributorId }
          circuitLastUpdated := now }
    | none =>
      { store with
          queue := { waitingQueue with
                      contributors := newContributors
                      currentContributor := "" }
          circuitLastUpdated := now }
  else
    -- Pre-conditions not met: only the unconditional circuit update runs.
    { store with
        queue := { waitingQueue with
                    contributors := contributors
                    currentContributor := "" }
        circuitLastUpdated := now }

/-- The before/after image of a participant document delivered to the
`coordinateCeremonyParticipant` trigger. -/
structure ParticipantSnapshot where
  contributionProgress : Nat
  status : String
  contributionStep : String
deriving DecidableEq

/-- Embedding of the `coordinateCeremonyParticipant` trigger body
(src/unnamed/part_002, lines 222-321): classify the before/after pair and
dispatch `coordinate`. The Store holds the circuit the dispatch selects by
sequence position. -/
def coordinateCeremonyParticipant (pid ceremonyId : String)
    (exParticipant changedParticipant : ParticipantSnapshot) (now : ℚ) (store : Store) : Store :=
  let prevContributionProgress := exParticipant.contributionProgress
  let prevStatus := exParticipant.status
  let prevContributionStep := exParticipant.contributionStep
  let changedContributionProgress := changedParticipant.contributionProgress
  let changedStatus := changedParticipant.status
  let changedContributionStep := changedParticipant.contributionStep
  let participantReadyToContribute := changedStatus == ParticipantStatus.READY
  let participantReadyForFirstContribution :=
    participantReadyToContribute && prevContributionProgress == 0
  let participantResumingContributionAfterTimeout :=
    participantReadyToContribute && prevContributionProgress == changedContributionProgress
  let participantReadyForNextContribution :=
    participantReadyToContribute &&
      prevContributionProgress == changedContributionProgress - 1 &&
      prevContributionProgress != 0
  let participantCompletedEveryCircuitContribution :=
    changedStatus == ParticipantStatus.DONE && prevStatus != ParticipantStatus.DONE
  let participantCompletedContribution :=
    prevContributionProgress == changedContributionProgress &&
      prevStatus == ParticipantStatus.CONTRIBUTING &&
      prevContributionStep == ParticipantContributionStep.VERIFYING &&
      changedStatus == ParticipantStatus.CONTRIBUTED &&
      changedContributionStep == ParticipantContributionStep.COMPLETED
  if participantReadyForFirstContribution || participantResumingContributionAfterTimeout ||
      participantReadyForNextContribution then
    coordinate pid changedStatus changedContributionStep true none now store
  else if participantCompletedContribution || participantCompletedEveryCircuitContribution then
    coordinate pid changedStatus changedContributionStep false (some ceremonyId) now store
  else store

/-- The callable-request data and auth context of `verifycontribution`.
Missing JavaScript string inputs are modelled as the empty (falsy) string. -/
structure VerifyRequest where
  hasAuth : Bool
  tokenParticipant : Bool
  tokenCoordinator : Bool
  ceremonyId : String
  circuitId : String
  contributorOrCoordinatorIdentifier : String
  bucketName : String
  uid : String
deriving DecidableEq

/-- The three `CUSTOM_CONTRIBUTION_VERIFICATION_SOFTWARE_*` environment
variables; the surrounding `Option` models the absence of any of them. -/
structure VerifyEnvConfig where
  name : String
  version : String
  commitHash : String
deriving DecidableEq

/-- Behaviour of the worker VM during one verification: whether each awaited
call succeeds (a `false` models the call throwing), the status-probe result,
and the combined command output retrieved on success. -/
structure WorkerEnv where
  startOk : Bool
  statusRunning : Bool
  runCommandOk : Bool
  retrieveOk : Bool
  commandOutput : String
deriving DecidableEq

/-- Structured errors the verifier can surface (via `logAndThrowError`) plus
the implicit JavaScript runtime error of reading a field of `undefined`. -/
inductive VerifyError where
  | authError
  | missingInput
  | wrongConfiguration
  | inexistentDocumentData
  | noParticipantContributionData
  | workerStartError
  | workerCommandError
  | workerOutputError
  | runtimeTypeError
deriving DecidableEq

/-- The `verificationSoftware` block written into contribution documents. -/
structure SoftwareBlock where
  name : String
  version : String
  commitHash : String
deriving DecidableEq

/-- The `files` block written into valid contribution documents. -/
structure FilesBlock where
  transcriptFilename : String
  lastZkeyFilename : String
  transcriptStoragePath : String
  lastZkeyStoragePath : String
  transcriptBlake2bHash : String
deriving DecidableEq

/-- A contribution document as created by `verifycontribution`; the fields
present only on the valid path are `Option`s. -/
structure ContributionDoc where
  participantId : String
  contributionComputationTime : Option ℚ
  verificationComputationTime : ℚ
  zkeyIndex : String
  files : Option FilesBlock
  verificationSoftware : SoftwareBlock
  valid : Bool
  lastUpdated : ℚ
deriving DecidableEq

/-- The circuit-document update committed by the non-finalizing branch of
`verifycontribution` (new `avgTimings` and `waitingQueue`). -/
structure CircuitWrite where
  avgTimings : AvgTimings
  waitingQueue : WaitingQueue
  lastUpdated : ℚ
deriving DecidableEq

/-- The externally visible effects of one `verifycontribution` invocation:
worker lifecycle calls, the blob-store deletion, and the documents of the
committed batch (`none` when no such write was committed). -/
structure VerifyEffects where
  workerStarted : Bool
  workerStopped : Bool
  zkeyDeleted : Bool
  createdDoc : Option ContributionDoc
  circuitUpdate : Option CircuitWrite
deriving DecidableEq

/-- Result of one `verifycontribution` invocation: the surfaced outcome and
the effects performed before returning or throwing. -/
structure VerifyResult where
  outcome : Except VerifyError Unit
  effects : VerifyEffects

/-- Modelled from the spec: `getZkeyStorageFilePath` of the actions package is
not under src/; the spec (section 6) fixes only the filename layout, so the
storage path is modelled as a circuit folder followed by the filename. -/
def getZkeyStorageFilePath (circuitPfx filename : String) : String :=
  "circuits/" ++ circuitPfx ++ "/contributions/" ++ filename

/-- Modelled from the spec: `getTranscriptStorageFilePath` of the actions
package is not under src/; the spec (section 6) places transcripts under a
transcripts folder of the circuit. -/
def getTranscriptStorageFilePath (circuitPfx filename : String) : String :=
  "circuits/" ++ circuitPfx ++ "/transcripts/" ++ filename

/-- Step (1.A.4) of `verifycontribution` (src/unnamed/part_002, lines 487-554):
create the contribution document. The valid branch locates the participant
contribution entries without a document reference, fails unless exactly one
exists, reads `contributions.at(0).computationTime`, and builds the full
document; the invalid branch deletes the candidate zkey and builds the
minimal document. Returns the document, the `contributionComputationTime`
and `verifyCloudFunctionTime` values left behind by the branch (their `0`
initializers when untouched), and whether the zkey was deleted. -/
def contributionDocResult (req : VerifyRequest) (participant : Participant)
    (softwareBlock : SoftwareBlock) (isContributionValid isFinalizing : Bool)
    (lastZkeyIndex verificationTranscriptCompleteFilename lastZkeyFilename
      verificationTranscriptStoragePathAndFilename lastZkeyStoragePath : String)
    (verifyCloudFunctionExecutionTime cloudFnTimeMs now : ℚ) :
    Except VerifyError (ContributionDoc × ℚ × ℚ × Bool) :=
  if isContributionValid then
    let transcriptBlake2bHash := ""
    let participantContributions := participant.contributions.filter
      fun contribution =>
        contribution.hash != "" && contribution.computationTime != 0 && contribution.doc == ""
    if participantContributions.length != 1 then
      Except.error VerifyError.noParticipantContributionData
    else
      match participant.contributions.head? with
      | none => Except.error VerifyError.runtimeTypeError
      | some firstEntry =>
        let contributionComputationTime := firstEntry.computationTime
        Except.ok
          ({ participantId := req.uid
             contributionComputationTime := some contributionComputationTime
             verificationComputationTime := verifyCloudFunctionExecutionTime
             zkeyIndex := if isFinalizing then finalContributionIndex else lastZkeyIndex
             files := some
               { transcriptFilename := verificationTranscriptCompleteFilename
                 lastZkeyFilename := lastZkeyFilename
                 transcriptStoragePath := verificationTranscriptStoragePathAndFilename
                 lastZkeyStoragePath := lastZkeyStoragePath
                 transcriptBlake2bHash := transcriptBlake2bHash }
             verificationSoftware := softwareBlock
             valid := isContributionValid
             lastUpdated := now },
            contributionComputationTime, cloudFnTimeMs, false)
  else
    Except.ok
      ({ participantId := req.uid
         contributionComputationTime := none
         verificationComputationTime := verifyCloudFunctionExecutionTime
         zkeyIndex := if isFinalizing then finalContributionIndex else lastZkeyIndex
         files := none
         verificationSoftware := softwareBlock
         valid := isContributionValid
         lastUpdated := now },
        0, 0, true)

/-- Step (1.A.4.C.1) of `verifycontribution` (src/unnamed/part_002, lines
556-596): the circuit-document update with the new rolling averages and
waiting-queue counters; every field falls back to its previous value when the
contribution is invalid. -/
def circuitAvgAndQueueWrite (circuit : Circuit) (participant : Participant)
    (isContributionValid : Bool)
    (contributionComputationTime verifyCloudFunctionTime now : ℚ) : CircuitWrite :=
  let waitingQueue := circuit.waitingQueue
  let completedContributions := waitingQueue.completedContributions
  let failedContributions := waitingQueue.failedContributions
  let avgContributionComputationTime := circuit.avgTimings.contributionComputation
  let avgFullContributionTime := circuit.avgTimings.fullContribution
  let avgVerifyCloudFunctionTime := circuit.avgTimings.verifyCloudFunction
  let fullContributionTime :=
    participant.verificationStartedAt - participant.contributionStartedAt
  let newAvgContributionComputationTime :=
    if avgContributionComputationTime > 0 then
      (avgContributionComputationTime + contributionComputationTime) / 2
    else contributionComputationTime
  let newAvgFullContributionTime :=
    if avgFullContributionTime > 0 then
      (avgFullContributionTime + fullContributionTime) / 2
    else fullContributionTime
  let newAvgVerifyCloudFunctionTime :=
    if avgVerifyCloudFunctionTime > 0 then
      (avgVerifyCloudFunctionTime + verifyCloudFunctionTime) / 2
    else verifyCloudFunctionTime
  { avgTimings :=
      { contributionComputation :=
          if isContributionValid then newAvgContributionComputationTime
          else avgContributionComputationTime
        fullContribution :=
          if isContributionValid then newAvgFullContributionTime
          else avgFullContributionTime
        verifyCloudFunction :=
          if isContributionValid then newAvgVerifyCloudFunctionTime
          else avgVerifyCloudFunctionTime }
    waitingQueue := { waitingQueue with
        completedContributions :=
          if isContributionValid then completedContributions + 1
          else completedContributions
        failedContributions :=
          if isContributionValid then failedContributions
          else failedContributions + 1 }
    lastUpdated := now }

/-- Steps (0) through (2) of `verifycontribution` after the documents have
been fetched and found present (src/unnamed/part_002, lines 390-608): derive
the pre-conditions and indices, run the worker lifecycle, create the
contribution document and circuit update, and commit. -/
def verifycontributionMain (req : VerifyRequest) (env : VerifyEnvConfig)
    (ceremony : Ceremony) (circuit : Circuit) (participant : Participant) (worker : WorkerEnv)
    (execTimeMs cloudFnTimeMs : ℚ) (now : ℚ) : VerifyResult :=
  let noEffects : VerifyEffects :=
    { workerStarted := false, workerStopped := false, zkeyDeleted := false
      createdDoc := none, circuitUpdate := none }
  let completedContributions := circuit.waitingQueue.completedContributions
  let isFinalizing := ceremony.state == CeremonyState.CLOSED && req.tokenCoordinator
  let isContributing := participant.status == ParticipantStatus.CONTRIBUTING
  let lastZkeyIndex := formatZkeyIndex (completedContributions + 1)
  let verificationTranscriptCompleteFilename :=
    circuit.pfx ++ "_" ++
      (if isFinalizing then
        req.contributorOrCoordinatorIdentifier ++ "_" ++ finalContributionIndex ++
          "_verification_transcript.log"
      else
        lastZkeyIndex ++ "_" ++ req.contributorOrCoordinatorIdentifier ++
          "_verification_transcript.log")
  let lastZkeyFilename :=
    circuit.pfx ++ "_" ++ (if isFinalizing then finalContributionIndex else lastZkeyIndex) ++
      ".zkey"
  if isContributing || isFinalizing then
    let verificationTranscriptStoragePathAndFilename :=
      getTranscriptStorageFilePath circuit.pfx verificationTranscriptCompleteFilename
    let lastZkeyStoragePath :=
      getZkeyStorageFilePath circuit.pfx
        (circuit.pfx ++ "_" ++
          (if isFinalizing then finalContributionIndex else lastZkeyIndex) ++ ".zkey")
    if !worker.startOk then
      ⟨Except.error VerifyError.workerStartError, noEffects⟩
    else
      let effectsAfterStart := { noEffects with workerStarted := true }
      let verifyCloudFunctionExecutionTime := execTimeMs
      if !worker.runCommandOk then
        ⟨Except.error VerifyError.workerCommandError, effectsAfterStart⟩
      else if !worker.retrieveOk then
        ⟨Except.error VerifyError.workerOutputError, effectsAfterStart⟩
      else
        let commandOutput := worker.commandOutput
        let isContributionValid := stringIncludes commandOutput "ZKey Ok!"
        let effectsAfterStop := { effectsAfterStart with workerStopped := true }
        let softwareBlock : SoftwareBlock :=
          { name := env.name, version := env.version, commitHash := env.commitHash }
        match contributionDocResult req participant softwareBlock isContributionValid
            isFinalizing lastZkeyIndex verificationTranscriptCompleteFilename
            lastZkeyFilename verificationTranscriptStoragePathAndFilename
            lastZkeyStoragePath verifyCloudFunctionExecutionTime cloudFnTimeMs now with
        | Except.error e => ⟨Except.error e, effectsAfterStop⟩
        | Except.ok (contributionDoc, contributionComputationTime,
            verifyCloudFunctionTime, zkeyDeleted) =>
          let effectsAfterDoc :=
            { effectsAfterStop with
                zkeyDeleted := zkeyDeleted, createdDoc := some contributionDoc }
          if !isFinalizing then
            let circuitWrite := circuitAvgAndQueueWrite circuit participant
              isContributionValid contributionComputationTime verifyCloudFunctionTime now
            ⟨Except.ok (), { effectsAfterDoc with circuitUpdate := some circuitWrite }⟩
          else ⟨Except.ok (), effectsAfterDoc⟩
  else ⟨Except.ok (), noEffects⟩

/-- Embedding of `verifycontribution` (src/unnamed/part_002, lines 346-609).
The Store documents read at the start are passed as `Option`s (`none` models a
missing document); `worker` drives the awaited EC2/SSM calls;
`execTimeMs` and `cloudFnTimeMs` are the values of the two timers
(`verificationTaskTimer.ms()` and `verifyContributionTimer.ms()`); `now` is
the server timestamp used for `lastUpdated` fields. -/
def verifycontribution (req : VerifyRequest) (envConfig : Option VerifyEnvConfig)
    (ceremonyData : Option Ceremony) (circuitData : Option Circuit)
    (participantData : Option Participant) (worker : WorkerEnv)
    (execTimeMs cloudFnTimeMs : ℚ) (now : ℚ) : VerifyResult :=
  let noEffects : VerifyEffects :=
    { workerStarted := false, workerStopped := false, zkeyDeleted := false
      createdDoc := none, circuitUpdate := none }
  if !req.hasAuth || (!req.tokenParticipant && !req.tokenCoordinator) then
    ⟨Except.error VerifyError.authError, noEffects⟩
  else if req.ceremonyId == "" || req.circuitId == "" ||
      req.contributorOrCoordinatorIdentifier == "" || req.bucketName == "" then
    ⟨Except.error VerifyError.missingInput, noEffects⟩
  else
    match envConfig with
    | none => ⟨Except.error VerifyError.wrongConfiguration, noEffects⟩
    | some env =>
      match ceremonyData, circuitData, participantData with
      | some ceremony, some circuit, some participant =>
        verifycontributionMain req env ceremony circuit participant worker
          execTimeMs cloudFnTimeMs now
      | _, _, _ => ⟨Except.error VerifyError.inexistentDocumentData, noEffects⟩

/-- Invariant (I2) of the spec: whenever `currentContributor` is non-empty it
is the head of `contributors`. -/
def headInvariant (q : WaitingQueue) : Prop :=
  q.currentContributor ≠ "" → q.contributors.head? = some q.currentContributor

instance (q : WaitingQueue) : Decidable (headInvariant q) := by
  unfold headInvariant
  infer_instance

/- Concrete inputs used by the counterexamples and witnesses below. -/

/-- A well-formed request from an authenticated participant. -/
def okRequest : VerifyRequest :=
  { hasAuth := true, tokenParticipant := true, tokenCoordinator := false
    ceremonyId := "cer", circuitId := "cir", contributorOrCoordinatorIdentifier := "who"
    bucketName := "bucket", uid := "u1" }

/-- A complete verification-software environment configuration. -/
def okEnvConfig : VerifyEnvConfig := { name := "sw", version := "1.0", commitHash := "abc" }

/-- A worker whose command output carries the success marker. -/
def okWorker : WorkerEnv :=
  { startOk := true, statusRunning := true, runCommandOk := true, retrieveOk := true
    commandOutput := "[INFO] snarkjs: ZKey Ok! done" }

/-- Participant for the C3 evaluation: the unique entry without a document
reference (computation time 99) is second; the first entry (computation time
50) already carries a reference. -/
def c3Participant : Participant :=
  { status := ParticipantStatus.CONTRIBUTING
    contributionStep := ParticipantContributionStep.VERIFYING
    contributionProgress := 1
    contributions := [⟨"aa", 50, "docX"⟩, ⟨"bb", 99, ""⟩]
    contributionStartedAt := 0, verificationStartedAt := 10, lastUpdated := 0 }

/-- Circuit for the C3 evaluation. -/
def c3Circuit : Circuit :=
  { waitingQueue := ⟨["u1"], "u1", 0, 0⟩, pfx := "c1", avgTimings := ⟨0, 0, 0⟩
    instanceId := "i-1" }

/-- The C3 failing-input invocation. -/
def c3Run : VerifyResult :=
  verifycontribution okRequest (some okEnvConfig) (some ⟨CeremonyState.OPENED⟩)
    (some c3Circuit) (some c3Participant) okWorker 7 20 1000

/-- Participant for the rolling-average scenario: one pending contribution
entry, full-contribution sample `sample` (verification started `sample`
milliseconds after the contribution). -/
def c5Participant (sample : ℚ) : Participant :=
  { status := ParticipantStatus.CONTRIBUTING
    contributionStep := ParticipantContributionStep.VERIFYING
    contributionProgress := 1
    contributions := [⟨"h", 10, ""⟩]
    contributionStartedAt := 0, verificationStartedAt := sample, lastUpdated := 0 }

/-- Fresh circuit with all averages zero. -/
def c5Circuit0 : Circuit :=
  { waitingQueue := ⟨["u1"], "u1", 0, 0⟩, pfx := "c", avgTimings := ⟨0, 0, 0⟩
    instanceId := "i-1" }

/-- One valid contribution with the given full-contribution sample, feeding
the committed circuit update back into the circuit document. -/
def c5Step (cir : Circuit) (sample : ℚ) : Circuit :=
  match (verifycontribution okRequest (some okEnvConfig) (some ⟨CeremonyState.OPENED⟩)
      (some cir) (some (c5Participant sample)) okWorker 0 0 0).effects.circuitUpdate with
  | some w => { cir with avgTimings := w.avgTimings, waitingQueue := w.waitingQueue }
  | none => cir

/-- Circuit after the samples 100, 300, 500. -/
def c5After1 : Circuit := c5Step c5Circuit0 100

/-- Circuit after the second sample. -/
def c5After2 : Circuit := c5Step c5After1 300

/-- Circuit after the third sample. -/
def c5After3 : Circuit := c5Step c5After2 500

/-- Participant for the resume-after-timeout scenarios: already the current
contributor, READY again, `contributionStartedAt` previously 5. -/
def c6Participant : Participant :=
  { status := ParticipantStatus.READY
    contributionStep := ParticipantContributionStep.DOWNLOADING
    contributionProgress := 1
    contributions := []
    contributionStartedAt := 5, verificationStartedAt := 0, lastUpdated := 0 }

/-- Store for the resume scenario: participant `p` is head of the queue and
recorded as the current contributor. -/
def c6Store : Store :=
  { participants := [("p", c6Participant)]
    queue := ⟨["p"], "p", 0, 0⟩, circuitLastUpdated := 0 }

/-- Participant in the WAITING state for the C7 evaluation. -/
def c7Participant : Participant :=
  { status := ParticipantStatus.WAITING
    contributionStep := ParticipantContributionStep.DOWNLOADING
    contributionProgress := 1
    contributions := []
    contributionStartedAt := 0, verificationStartedAt := 0, lastUpdated := 0 }

/-- The C7 invocation: authenticated, complete inputs and configuration,
existing documents, participant not CONTRIBUTING, ceremony not CLOSED. -/
def c7Run : VerifyResult :=
  verifycontribution okRequest (some okEnvConfig) (some ⟨CeremonyState.OPENED⟩)
    (some c3Circuit) (some c7Participant) okWorker 7 20 1000

/-- A worker whose output retrieval fails (the SSM call throws). -/
def c8WorkerRetrieveFail : WorkerEnv :=
  { startOk := true, statusRunning := true, runCommandOk := true, retrieveOk := false
    commandOutput := "" }

/-- A worker whose command execution fails. -/
def c8WorkerCommandFail : WorkerEnv :=
  { startOk := true, statusRunning := true, runCommandOk := false, retrieveOk := true
    commandOutput := "" }

/-- A worker that fails to start. -/
def c8WorkerStartFail : WorkerEnv :=
  { startOk := false, statusRunning := true, runCommandOk := true, retrieveOk := true
    commandOutput := "" }

/-- The C8 invocation with the given worker behaviour, on a CONTRIBUTING
participant. -/
def c8Run (worker : WorkerEnv) : VerifyResult :=
  verifycontribution okRequest (some okEnvConfig) (some ⟨CeremonyState.OPENED⟩)
    (some c3Circuit) (some (c5Participant 100)) worker 7 20 1000

/-- Participant before the C9 trigger pair: fresh, never contributed. -/
def c9Participant : Participant :=
  { status := ParticipantStatus.WAITING
    contributionStep := ""
    contributionProgress := 0
    contributions := []
    contributionStartedAt := 0, verificationStartedAt := 0, lastUpdated := 0 }

/-- Store before the first C9 invocation: empty waiting queue. -/
def c9Store0 : Store :=
  { participants := [("p", c9Participant)]
    queue := ⟨[], "", 0, 0⟩, circuitLastUpdated := 0 }

/-- Before image of the C9 pair. -/
def c9Before : ParticipantSnapshot := ⟨0, ParticipantStatus.WAITING, ""⟩

/-- After image of the C9 pair: READY for the first contribution. -/
def c9After : ParticipantSnapshot := ⟨1, ParticipantStatus.READY, ""⟩

/-- Store after the first C9 invocation. -/
def c9Store1 : Store := coordinateCeremonyParticipant "p" "cer" c9Before c9After 7 c9Store0

/-- Store after re-invoking the C9 pair on the produced state, with the same
server timestamp. -/
def c9Store2 : Store := coordinateCeremonyParticipant "p" "cer" c9Before c9After 7 c9Store1

/-- Fallback circuit write used only to extract committed values. -/
def defaultCircuitWrite : CircuitWrite := ⟨⟨0, 0, 0⟩, ⟨[], "", 0, 0⟩, 0⟩

/-- Fallback contribution document used only to extract committed values. -/
def defaultContributionDoc : ContributionDoc :=
  { participantId := "", contributionComputationTime := none, verificationComputationTime := 0
    zkeyIndex := "", files := none, verificationSoftware := ⟨"", "", ""⟩, valid := false
    lastUpdated := 0 }

/-- A complete valid-path invocation on a CONTRIBUTING participant. -/
def validRun : VerifyResult :=
  verifycontribution okRequest (some okEnvConfig) (some ⟨CeremonyState.OPENED⟩)
    (some c3Circuit) (some (c5Participant 100)) okWorker 7 20 1000

/-- The circuit update committed by `validRun`. -/
def validRunWrite : CircuitWrite := (validRun.effects.circuitUpdate).getD defaultCircuitWrite

/-- The contribution document created by `validRun`. -/
def validRunDoc : ContributionDoc := (validRun.effects.createdDoc).getD defaultContributionDoc

/-- A finalizing invocation: ceremony CLOSED, caller is the coordinator. -/
def finalizingRequest : VerifyRequest :=
  { hasAuth := true, tokenParticipant := false, tokenCoordinator := true
    ceremonyId := "cer", circuitId := "cir", contributorOrCoordinatorIdentifier := "coord"
    bucketName := "bucket", uid := "u1" }

/- Helper lemmas shared by the theorems below. -/

theorem lookup_map_update (ps : List (String × Participant)) (pid : String)
    (f : Participant → Participant) :
    (ps.map fun kv => if kv.1 = pid then (kv.1, f kv.2) else kv).lookup pid =
      (ps.lookup pid).map f := by
  induction ps with
  | nil => rfl
  | cons kv rest ih =>
    obtain ⟨k, v⟩ := kv
    simp only [List.map_cons]
    by_cases h : k = pid
    · rw [if_pos h]
      subst h
      simp [List.lookup]
    · rw [if_neg h]
      have hbeq : (pid == k) = false := by
        rw [beq_eq_false_iff_ne]
        exact fun hh => h hh.symm
      simp [List.lookup, hbeq, ih]

theorem lookup_updateParticipant (store : Store) (pid : String) (f : Participant → Participant) :
    lookupParticipant (updateParticipant store pid f) pid =
      (lookupParticipant store pid).map f := by
  unfold lookupParticipant updateParticipant
  exact lookup_map_update store.participants pid f

theorem contributionDocResult_ok (req : VerifyRequest) (participant : Participant)
    (sw : SoftwareBlock) (v f : Bool) (s1 s2 s3 s4 s5 : String) (tE tC now : ℚ)
    (d : ContributionDoc) (cct vt : ℚ) (zd : Bool)
    (heq : contributionDocResult req participant sw v f s1 s2 s3 s4 s5 tE tC now =
      Except.ok (d, cct, vt, zd)) :
    d.valid = v ∧
      (v = true → (∃ c0, participant.contributions.head? = some c0 ∧ cct = c0.computationTime) ∧
        vt = tC) ∧
      (v = false → cct = 0 ∧ vt = 0) := by
  unfold contributionDocResult at heq
  split at heq
  case isTrue hv =>
    dsimp only at heq
    split at heq
    case isTrue => exact Except.noConfusion heq
    case isFalse hlen =>
      split at heq
      case h_1 => exact Except.noConfusion heq
      case h_2 c0 hc0 =>
        simp only [Except.ok.injEq, Prod.mk.injEq] at heq
        obtain ⟨hd, hcct, hvt, hzd⟩ := heq
        subst hd
        subst hcct
        subst hvt
        refine ⟨rfl, fun _ => ⟨⟨c0, hc0, rfl⟩, rfl⟩, fun hfalse => ?_⟩
        rw [hv] at hfalse
        exact Bool.noConfusion hfalse
  case isFalse hv =>
    simp only [Except.ok.injEq, Prod.mk.injEq] at heq
    obtain ⟨hd, hcct, hvt, hzd⟩ := heq
    subst hd
    subst hcct
    subst hvt
    exact ⟨rfl, fun htrue => absurd htrue hv, fun _ => ⟨rfl, rfl⟩⟩

theorem verifyMain_circuitUpdate_characterization (req : VerifyRequest) (env : VerifyEnvConfig)
    (ceremony : Ceremony) (circuit : Circuit) (participant : Participant) (worker : WorkerEnv)
    (tE tC now : ℚ) (w : CircuitWrite)
    (h : (verifycontributionMain req env ceremony circuit participant worker
        tE tC now).effects.circuitUpdate = some w) :
    ∃ cct vt,
      w = circuitAvgAndQueueWrite circuit participant
            (stringIncludes worker.commandOutput "ZKey Ok!") cct vt now ∧
      (stringIncludes worker.commandOutput "ZKey Ok!" = true →
        (∃ c0, participant.contributions.head? = some c0 ∧ cct = c0.computationTime) ∧
          vt = tC) ∧
      (stringIncludes worker.commandOutput "ZKey Ok!" = false → cct = 0 ∧ vt = 0) := by
  unfold verifycontributionMain at h
  dsimp only at h
  repeat' split at h
  all_goals try exact Option.noConfusion h
  rename_i hdoc _
  have h2 := Option.some.inj h
  have hfacts := contributionDocResult_ok _ _ _ _ _ _ _ _ _ _ _ _ _ _ _ _ _ hdoc
  exact ⟨_, _, h2.symm, hfacts.2.1, hfacts.2.2⟩

theorem verifyMain_createdDoc_valid (req : VerifyRequest) (env : VerifyEnvConfig)
    (ceremony : Ceremony) (circuit : Circuit) (participant : Participant) (worker : WorkerEnv)
    (tE tC now : ℚ) (d : ContributionDoc)
    (h : (verifycontributionMain req env ceremony circuit participant worker
        tE tC now).effects.createdDoc = some d) :
    d.valid = stringIncludes worker.commandOutput "ZKey Ok!" := by
  unfold verifycontributionMain at h
  dsimp only at h
  repeat' split at h
  all_goals try exact Option.noConfusion h
  all_goals (
    rename_i hdoc _
    have h2 := Option.some.inj h
    subst h2
    exact (contributionDocResult_ok _ _ _ _ _ _ _ _ _ _ _ _ _ _ _ _ _ hdoc).1)

theorem verifyMain_queue_fields (req : VerifyRequest) (env : VerifyEnvConfig)
    (ceremony : Ceremony) (circuit : Circuit) (participant : Participant) (worker : WorkerEnv)
    (tE tC now : ℚ) (w : CircuitWrite)
    (h : (verifycontributionMain req env ceremony circuit participant worker
        tE tC now).effects.circuitUpdate = some w) :
    w.waitingQueue.contributors = circuit.waitingQueue.contributors ∧
      w.waitingQueue.currentContributor = circuit.waitingQueue.currentContributor := by
  unfold verifycontributionMain at h
  dsimp only at h
  repeat' split at h
  all_goals try exact Option.noConfusion h
  have h2 := Option.some.inj h
  subst h2
  exact ⟨rfl, rfl⟩

theorem verifyMain_finalizing_none (req : VerifyRequest) (env : VerifyEnvConfig)
    (ceremony : Ceremony) (circuit : Circuit) (participant : Participant) (worker : WorkerEnv)
    (tE tC now : ℚ)
    (hc : ceremony.state = CeremonyState.CLOSED) (ht : req.tokenCoordinator = true) :
    (verifycontributionMain req env ceremony circuit participant worker
        tE tC now).effects.circuitUpdate = none := by
  have h2 : (ceremony.state == CeremonyState.CLOSED && req.tokenCoordinator) = true := by
    rw [hc, ht]
    simp
  unfold verifycontributionMain
  dsimp only
  rw [h2]
  simp only [Bool.or_true, Bool.not_true]
  repeat' split
  all_goals try rfl
  all_goals exact Bool.noConfusion ‹false = true›

theorem verifyMain_not_eligible (req : VerifyRequest) (env : VerifyEnvConfig)
    (ceremony : Ceremony) (circuit : Circuit) (participant : Participant) (worker : WorkerEnv)
    (tE tC now : ℚ)
    (hs : participant.status ≠ ParticipantStatus.CONTRIBUTING)
    (hnf : ¬(ceremony.state = CeremonyState.CLOSED ∧ req.tokenCoordinator = true)) :
    verifycontributionMain req env ceremony circuit participant worker tE tC now =
      ⟨Except.ok (), { workerStarted := false, workerStopped := false, zkeyDeleted := false
                       createdDoc := none, circuitUpdate := none }⟩ := by
  have h1 : (participant.status == ParticipantStatus.CONTRIBUTING) = false :=
    beq_eq_false_iff_ne.mpr hs
  have h2 : (ceremony.state == CeremonyState.CLOSED && req.tokenCoordinator) = false := by
    rcases eq_or_ne ceremony.state CeremonyState.CLOSED with hcs | hcs
    · have hb : req.tokenCoordinator = false := by
        cases hb2 : req.tokenCoordinator
        · rfl
        · exact absurd ⟨hcs, hb2⟩ hnf
      rw [hb, Bool.and_false]
    · rw [beq_eq_false_iff_ne.mpr hcs, Bool.false_and]
  unfold verifycontributionMain
  dsimp only
  rw [h1, h2]
  simp

theorem verifycontribution_guards_pass (req : VerifyRequest) (env : VerifyEnvConfig)
    (ceremony : Ceremony) (circuit : Circuit) (participant : Participant) (worker : WorkerEnv)
    (tE tC now : ℚ)
    (hAuth : req.hasAuth = true)
    (hTok : (req.tokenParticipant || req.tokenCoordinator) = true)
    (h1 : req.ceremonyId ≠ "") (h2 : req.circuitId ≠ "")
    (h3 : req.contributorOrCoordinatorIdentifier ≠ "") (h4 : req.bucketName ≠ "") :
    verifycontribution req (some env) (some ceremony) (some circuit) (some participant)
        worker tE tC now =
      verifycontributionMain req env ceremony circuit participant worker tE tC now := by
  have hA : (!req.hasAuth || (!req.tokenParticipant && !req.tokenCoordinator)) = false := by
    rw [hAuth]
    cases hp : req.tokenParticipant <;> cases hcr : req.tokenCoordinator <;> simp_all
  have hB : (req.ceremonyId == "" || req.circuitId == "" ||
      req.contributorOrCoordinatorIdentifier == "" || req.bucketName == "") = false := by
    rw [beq_eq_false_iff_ne.mpr h1, beq_eq_false_iff_ne.mpr h2,
      beq_eq_false_iff_ne.mpr h3, beq_eq_false_iff_ne.mpr h4]
    rfl
  unfold verifycontribution
  rw [hA, hB]
  simp

theorem lookupParticipant_set_queue (s : Store) (q : WaitingQueue) (t : ℚ) (pid : String) :
    lookupParticipant { s with queue := q, circuitLastUpdated := t } pid =
      lookupParticipant s pid := rfl

theorem coordinate_preserves_headInvariant (pid pStatus pStep : String) (isSingle : Bool)
    (cid : Option String) (now : ℚ) (store : Store) (hinv : headInvariant store.queue) :
    headInvariant (coordinate pid pStatus pStep isSingle cid now store).queue := by
  unfold coordinate singleCoordinationBatch
  dsimp only
  split
  · split
    · rename_i hempty
      simp only [Bool.and_eq_true, beq_iff_eq, List.isEmpty_iff] at hempty
      intro hne
      simp [hempty.2]
    · split
      · intro hne
        simp at hne
      · split
        · intro hne
          simp only at hne ⊢
          have := hinv hne
          cases hq : store.queue.contributors with
          | nil => rw [hq] at this; simp at this
          | cons a l =>
            rw [hq] at this
            simp at this
            simp [hq, this]
        · intro hne
          simp at hne
  · split
    · split
      · rename_i hhead
        intro hne
        simpa using hhead
      · intro hne
        simp at hne
    · intro hne
      simp at hne

theorem coordinate_scenario_a_eq (pid pStatus pStep : String) (now : ℚ) (store : Store)
    (hq : store.queue.contributors = []) (hcc : store.queue.currentContributor = "") :
    coordinate pid pStatus pStep true none now store =
      { updateParticipant
          (updateParticipant store pid fun p =>
            { p with
                contributionStep := ParticipantContributionStep.DOWNLOADING
                lastUpdated := now })
          pid (fun p =>
            { p with
                status := ParticipantStatus.CONTRIBUTING
                contributionStartedAt := now
                lastUpdated := now }) with
        queue := { store.queue with contributors := [pid], currentContributor := pid }
        circuitLastUpdated := now } := by
  unfold coordinate singleCoordinationBatch
  dsimp only
  rw [hq, hcc]
  rfl

theorem coordinate_resume_eq (pid pStep : String) (now : ℚ) (store : Store)
    (hcc : store.queue.currentContributor = pid) (hne : pid ≠ "") :
    coordinate pid ParticipantStatus.READY pStep true none now store =
      { updateParticipant
          (updateParticipant store pid fun p =>
            { p with
                contributionStep := ParticipantContributionStep.DOWNLOADING
                lastUpdated := now })
          pid (fun p =>
            { p with
                status := ParticipantStatus.CONTRIBUTING
                contributionStartedAt := now
                lastUpdated := now }) with
        queue := { store.queue with currentContributor := "" }
        circuitLastUpdated := now } := by
  have hb : (store.queue.currentContributor == "") = false := by
    rw [hcc]
    exact beq_eq_false_iff_ne.mpr hne
  have hb2 : (store.queue.currentContributor == pid) = true := by
    rw [hcc]
    exact beq_self_eq_true pid
  unfold coordinate singleCoordinationBatch
  dsimp only
  rw [hb, hb2]
  rfl

theorem trigger_ready_dispatch (pid cid : String) (before after : ParticipantSnapshot)
    (now : ℚ) (store : Store)
    (hstatus : after.status = ParticipantStatus.READY)
    (hprog : before.contributionProgress = 0) :
    coordinateCeremonyParticipant pid cid before after now store =
      coordinate pid after.status after.contributionStep true none now store := by
  unfold coordinateCeremonyParticipant
  dsimp only
  rw [hstatus, hprog]
  simp [ParticipantStatus.READY]
/-- Claim C1: every queue-mutating operation preserves the head invariant: any
`coordinate` batch (Scenario A promotion, Scenario A resume, Scenario B
enqueue, multi-participant head removal and promotion) and the verifier's
waiting-queue counter update yield a queue in which a non-empty
`currentContributor` is the head of `contributors`, provided the invariant
held in the pre-state. -/
theorem head_invariant_preserved :
    (∀ (pid pStatus pStep : String) (isSingle : Bool) (cid : Option String) (now : ℚ)
        (store : Store), headInvariant store.queue →
        headInvariant (coordinate pid pStatus pStep isSingle cid now store).queue) ∧
    (∀ (req : VerifyRequest) (env : VerifyEnvConfig) (ceremony : Ceremony) (circuit : Circuit)
        (participant : Participant) (worker : WorkerEnv) (tE tC now : ℚ) (w : CircuitWrite),
        (verifycontribution req (some env) (some ceremony) (some circuit) (some participant)
            worker tE tC now).effects.circuitUpdate = some w →
        headInvariant circuit.waitingQueue → headInvariant w.waitingQueue) := by
  constructor
  · exact coordinate_preserves_headInvariant
  · intro req env ceremony circuit participant worker tE tC now w h hinv
    unfold verifycontribution at h
    split at h
    · exact Option.noConfusion h
    · split at h
      · exact Option.noConfusion h
      · have hf := verifyMain_queue_fields req env ceremony circuit participant worker tE tC now
          w h
        intro hne
        rw [hf.1, hf.2]
        rw [hf.2] at hne
        exact hinv hne

/-- Witness for C1 at concrete inputs: a resume-branch coordination on a
one-participant queue and the circuit update of a complete valid run. -/
theorem head_invariant_preserved_witness :
    headInvariant (coordinate "p" ParticipantStatus.READY "" true none 42 c6Store).queue ∧
      headInvariant validRunWrite.waitingQueue :=
  ⟨head_invariant_preserved.1 "p" ParticipantStatus.READY "" true none 42 c6Store (by decide),
   head_invariant_preserved.2 okRequest okEnvConfig ⟨CeremonyState.OPENED⟩ c3Circuit
     (c5Participant 100) okWorker 7 20 1000 validRunWrite rfl (by decide)⟩

/-- Claim C2: a contribution document created by `verifycontribution` is
marked valid exactly when the retrieved worker output contains the substring
"ZKey Ok!"; no other feature of the output enters the decision. -/
theorem contribution_valid_iff_zkey_ok (req : VerifyRequest) (env : VerifyEnvConfig)
    (ceremony : Ceremony) (circuit : Circuit) (participant : Participant) (worker : WorkerEnv)
    (tE tC now : ℚ) (d : ContributionDoc)
    (h : (verifycontribution req (some env) (some ceremony) (some circuit) (some participant)
        worker tE tC now).effects.createdDoc = some d) :
    d.valid = true ↔ stringIncludes worker.commandOutput "ZKey Ok!" = true := by
  unfold verifycontribution at h
  split at h
  · exact Option.noConfusion h
  · split at h
    · exact Option.noConfusion h
    · rw [verifyMain_createdDoc_valid req env ceremony circuit participant worker tE tC now d h]

/-- Witness for C2: the document of the concrete valid run is valid, and the
concrete output indeed contains the marker. -/
theorem contribution_valid_iff_zkey_ok_witness :
    validRunDoc.valid = true ↔ stringIncludes okWorker.commandOutput "ZKey Ok!" = true :=
  contribution_valid_iff_zkey_ok okRequest okEnvConfig ⟨CeremonyState.OPENED⟩ c3Circuit
    (c5Participant 100) okWorker 7 20 1000 validRunDoc rfl

/-- Claim C3 fails on the code: with exactly one unreferenced entry (hash
"bb", computation time 99) in second position, the created document records
the computation time of the first entry (50), not 99: the source reads
`contributions.at(0)` instead of the filtered entry. -/
theorem computation_time_from_head_entry :
    (c3Run.effects.createdDoc.map fun d => d.contributionComputationTime) = some (some 50) ∧
      (c3Participant.contributions.filter fun c =>
          c.hash != "" && c.computationTime != 0 && c.doc == "") = [⟨"bb", 99, ""⟩] ∧
      (50 : ℚ) ≠ 99 := by
  exact ⟨by decide, by decide, by decide⟩
/-- Claim C4: for every non-finalizing committed invocation,
`completedContributions` rises by exactly 1 on a valid contribution and is
unchanged otherwise, `failedContributions` rises by exactly 1 on an invalid
one and is unchanged otherwise, and `avgTimings` is unchanged on an invalid
one; a finalizing invocation (CLOSED ceremony, coordinator caller) never
touches the circuit document. -/
theorem counters_and_timings_update :
    (∀ (req : VerifyRequest) (env : VerifyEnvConfig) (ceremony : Ceremony) (circuit : Circuit)
        (participant : Participant) (worker : WorkerEnv) (tE tC now : ℚ) (w : CircuitWrite),
        (verifycontribution req (some env) (some ceremony) (some circuit) (some participant)
            worker tE tC now).effects.circuitUpdate = some w →
        (stringIncludes worker.commandOutput "ZKey Ok!" = true →
          w.waitingQueue.completedContributions =
              circuit.waitingQueue.completedContributions + 1 ∧
            w.waitingQueue.failedContributions = circuit.waitingQueue.failedContributions) ∧
        (stringIncludes worker.commandOutput "ZKey Ok!" = false →
          w.waitingQueue.completedContributions = circuit.waitingQueue.completedContributions ∧
            w.waitingQueue.failedContributions =
              circuit.waitingQueue.failedContributions + 1 ∧
            w.avgTimings = circuit.avgTimings)) ∧
    (∀ (req : VerifyRequest) (env : VerifyEnvConfig) (ceremony : Ceremony) (circuit : Circuit)
        (participant : Participant) (worker : WorkerEnv) (tE tC now : ℚ),
        ceremony.state = CeremonyState.CLOSED → req.tokenCoordinator = true →
        (verifycontribution req (some env) (some ceremony) (some circuit) (some participant)
            worker tE tC now).effects.circuitUpdate = none) := by
  constructor
  · intro req env ceremony circuit participant worker tE tC now w h
    unfold verifycontribution at h
    split at h
    · exact Option.noConfusion h
    · split at h
      · exact Option.noConfusion h
      · obtain ⟨cct, vt, hw, hvalid, hinvalid⟩ :=
          verifyMain_circuitUpdate_characterization req env ceremony circuit participant worker
            tE tC now w h
        subst hw
        constructor
        · intro hv
          unfold circuitAvgAndQueueWrite
          dsimp only
          rw [hv]
          exact ⟨rfl, rfl⟩
        · intro hv
          unfold circuitAvgAndQueueWrite
          dsimp only
          rw [hv]
          exact ⟨rfl, rfl, rfl⟩
  · intro req env ceremony circuit participant worker tE tC now hc ht
    unfold verifycontribution
    split
    · rfl
    · split
      · rfl
      · exact verifyMain_finalizing_none req env ceremony circuit participant worker tE tC now
          hc ht

/-- Witness for C4: the concrete valid run increments the completed counter
and keeps the failed counter, and a concrete finalizing run leaves the
circuit document untouched. -/
theorem counters_and_timings_update_witness :
    (validRunWrite.waitingQueue.completedContributions =
        c3Circuit.waitingQueue.completedContributions + 1 ∧
      validRunWrite.waitingQueue.failedContributions =
        c3Circuit.waitingQueue.failedContributions) ∧
    (verifycontribution finalizingRequest (some okEnvConfig) (some ⟨CeremonyState.CLOSED⟩)
        (some c3Circuit) (some (c5Participant 100)) okWorker 7 20 1000).effects.circuitUpdate =
      none :=
  ⟨(counters_and_timings_update.1 okRequest okEnvConfig ⟨CeremonyState.OPENED⟩ c3Circuit
      (c5Participant 100) okWorker 7 20 1000 validRunWrite rfl).1 (by decide),
   counters_and_timings_update.2 finalizingRequest okEnvConfig ⟨CeremonyState.CLOSED⟩ c3Circuit
     (c5Participant 100) okWorker 7 20 1000 rfl rfl⟩
theorem c5Step_circuitUpdate (cir : Circuit) (sample : ℚ) :
    (verifycontribution okRequest (some okEnvConfig) (some ⟨CeremonyState.OPENED⟩)
        (some cir) (some (c5Participant sample)) okWorker 0 0 0).effects.circuitUpdate =
      some (circuitAvgAndQueueWrite cir (c5Participant sample)
        (stringIncludes okWorker.commandOutput "ZKey Ok!") 10 0 0) := rfl

theorem c5Step_fullContribution (cir : Circuit) (sample : ℚ) :
    (c5Step cir sample).avgTimings.fullContribution =
      if cir.avgTimings.fullContribution > 0 then
        (cir.avgTimings.fullContribution + (sample - 0)) / 2
      else sample - 0 := by
  unfold c5Step
  rw [c5Step_circuitUpdate]
  unfold circuitAvgAndQueueWrite
  dsimp only
  rw [show stringIncludes okWorker.commandOutput "ZKey Ok!" = true from rfl]
  rfl
/-- Claim C5: each rolling mean is updated on a valid contribution by the
rule new = (prev > 0 ? (prev + sample) / 2 : sample), with the samples the
code derives (head-entry computation time, verification start minus
contribution start, and the cloud-function timer); consequently a fresh
circuit receiving valid contributions with fullContribution samples 100,
300, 500 stores 100, then 200, then 350. -/
theorem rolling_average_rule :
    (∀ (req : VerifyRequest) (env : VerifyEnvConfig) (ceremony : Ceremony) (circuit : Circuit)
        (participant : Participant) (worker : WorkerEnv) (tE tC now : ℚ) (w : CircuitWrite),
        (verifycontribution req (some env) (some ceremony) (some circuit) (some participant)
            worker tE tC now).effects.circuitUpdate = some w →
        stringIncludes worker.commandOutput "ZKey Ok!" = true →
        (∃ c0, participant.contributions.head? = some c0 ∧
          w.avgTimings.contributionComputation =
            (if circuit.avgTimings.contributionComputation > 0 then
              (circuit.avgTimings.contributionComputation + c0.computationTime) / 2
            else c0.computationTime)) ∧
        w.avgTimings.fullContribution =
          (if circuit.avgTimings.fullContribution > 0 then
            (circuit.avgTimings.fullContribution +
              (participant.verificationStartedAt - participant.contributionStartedAt)) / 2
          else participant.verificationStartedAt - participant.contributionStartedAt) ∧
        w.avgTimings.verifyCloudFunction =
          (if circuit.avgTimings.verifyCloudFunction > 0 then
            (circuit.avgTimings.verifyCloudFunction + tC) / 2
          else tC)) ∧
    (c5After1.avgTimings.fullContribution = 100 ∧
      c5After2.avgTimings.fullContribution = 200 ∧
      c5After3.avgTimings.fullContribution = 350) := by
  constructor
  · intro req env ceremony circuit participant worker tE tC now w h hv
    unfold verifycontribution at h
    split at h
    · exact Option.noConfusion h
    · split at h
      · exact Option.noConfusion h
      · obtain ⟨cct, vt, hw, hvalid, hinvalid⟩ :=
          verifyMain_circuitUpdate_characterization req env ceremony circuit participant worker
            tE tC now w h
        obtain ⟨⟨c0, hc0, hcct⟩, hvt⟩ := hvalid hv
        subst hw
        subst hcct
        subst hvt
        unfold circuitAvgAndQueueWrite
        dsimp only
        rw [hv]
        exact ⟨⟨c0, hc0, rfl⟩, rfl, rfl⟩
  · have h1 : c5After1.avgTimings.fullContribution = 100 := by
      rw [show c5After1 = c5Step c5Circuit0 100 from rfl, c5Step_fullContribution]
      norm_num [c5Circuit0]
    have h2 : c5After2.avgTimings.fullContribution = 200 := by
      rw [show c5After2 = c5Step c5After1 300 from rfl, c5Step_fullContribution, h1]
      norm_num
    have h3 : c5After3.avgTimings.fullContribution = 350 := by
      rw [show c5After3 = c5Step c5After2 500 from rfl, c5Step_fullContribution, h2]
      norm_num
    exact ⟨h1, h2, h3⟩

/-- Witness for C5: the rule applied to the first concrete valid run. -/
theorem rolling_average_rule_witness :
    (∃ c0, (c5Participant 100).contributions.head? = some c0 ∧
      validRunWrite.avgTimings.contributionComputation =
        (if c3Circuit.avgTimings.contributionComputation > 0 then
          (c3Circuit.avgTimings.contributionComputation + c0.computationTime) / 2
        else c0.computationTime)) ∧
    validRunWrite.avgTimings.fullContribution =
      (if c3Circuit.avgTimings.fullContribution > 0 then
        (c3Circuit.avgTimings.fullContribution +
          ((c5Participant 100).verificationStartedAt -
            (c5Participant 100).contributionStartedAt)) / 2
      else (c5Participant 100).verificationStartedAt -
        (c5Participant 100).contributionStartedAt) ∧
    validRunWrite.avgTimings.verifyCloudFunction =
      (if c3Circuit.avgTimings.verifyCloudFunction > 0 then
        (c3Circuit.avgTimings.verifyCloudFunction + 20) / 2
      else (20 : ℚ)) :=
  rolling_average_rule.1 okRequest okEnvConfig ⟨CeremonyState.OPENED⟩ c3Circuit
    (c5Participant 100) okWorker 7 20 1000 validRunWrite rfl (by decide)
/-- Claim C6 fails on the code: in the resume branch (participant is the
current contributor, snapshot status READY) the committed batch sets
`contributionStartedAt` to the current server timestamp (42), although the
stored value was 5 — the field is not preserved. -/
theorem resume_resets_started_at_counterexample :
    c6Participant.contributionStartedAt = 5 ∧
      (lookupParticipant (coordinate "p" ParticipantStatus.READY "" true none 42 c6Store)
          "p").map (fun p => p.contributionStartedAt) = some 42 := by
  exact ⟨by decide, by decide⟩

/-- Claim C6 (amended): the resume branch sets the participant status to
CONTRIBUTING and the step to DOWNLOADING, and resets `contributionStartedAt`
to the current server timestamp (and `lastUpdated` likewise). -/
theorem resume_sets_status_step_and_started_at (pid pStep : String) (now : ℚ) (store : Store)
    (p0 : Participant) (hp : lookupParticipant store pid = some p0)
    (hcc : store.queue.currentContributor = pid) (hne : pid ≠ "") :
    lookupParticipant (coordinate pid ParticipantStatus.READY pStep true none now store) pid =
      some { p0 with
              status := ParticipantStatus.CONTRIBUTING
              contributionStep := ParticipantContributionStep.DOWNLOADING
              contributionStartedAt := now
              lastUpdated := now } := by
  rw [coordinate_resume_eq pid pStep now store hcc hne, lookupParticipant_set_queue,
    lookup_updateParticipant, lookup_updateParticipant, hp]
  rfl

/-- Witness for C6 (amended) at the concrete resume store. -/
theorem resume_sets_status_step_and_started_at_witness :
    lookupParticipant (coordinate "p" ParticipantStatus.READY "" true none 42 c6Store) "p" =
      some { c6Participant with
              status := ParticipantStatus.CONTRIBUTING
              contributionStep := ParticipantContributionStep.DOWNLOADING
              contributionStartedAt := 42
              lastUpdated := 42 } :=
  resume_sets_status_step_and_started_at "p" "" 42 c6Store c6Participant rfl rfl
    (by decide)
/-- Claim C7 fails on the code: an authenticated call with complete inputs and
configuration, existing documents, a WAITING participant and an OPENED
ceremony returns successfully — no structured error is surfaced. -/
theorem wrong_state_no_error_counterexample :
    c7Run.outcome = Except.ok () ∧ c7Run.effects.createdDoc = none ∧
      c7Run.effects.circuitUpdate = none :=
  ⟨rfl, rfl, rfl⟩

/-- Claim C7 (amended): such a call performs no Store mutation and no worker
call — it commits an empty batch and completes without surfacing an error. -/
theorem wrong_state_no_error_no_mutation (req : VerifyRequest) (env : VerifyEnvConfig)
    (ceremony : Ceremony) (circuit : Circuit) (participant : Participant) (worker : WorkerEnv)
    (tE tC now : ℚ)
    (hAuth : req.hasAuth = true)
    (hTok : (req.tokenParticipant || req.tokenCoordinator) = true)
    (h1 : req.ceremonyId ≠ "") (h2 : req.circuitId ≠ "")
    (h3 : req.contributorOrCoordinatorIdentifier ≠ "") (h4 : req.bucketName ≠ "")
    (hs : participant.status ≠ ParticipantStatus.CONTRIBUTING)
    (hnf : ¬(ceremony.state = CeremonyState.CLOSED ∧ req.tokenCoordinator = true)) :
    verifycontribution req (some env) (some ceremony) (some circuit) (some participant)
        worker tE tC now =
      ⟨Except.ok (), { workerStarted := false, workerStopped := false, zkeyDeleted := false
                       createdDoc := none, circuitUpdate := none }⟩ := by
  rw [verifycontribution_guards_pass req env ceremony circuit participant worker tE tC now
    hAuth hTok h1 h2 h3 h4]
  exact verifyMain_not_eligible req env ceremony circuit participant worker tE tC now hs hnf

/-- Witness for C7 (amended) at the concrete WAITING-participant call. -/
theorem wrong_state_no_error_no_mutation_witness :
    verifycontribution okRequest (some okEnvConfig) (some ⟨CeremonyState.OPENED⟩)
        (some c3Circuit) (some c7Participant) okWorker 7 20 1000 =
      ⟨Except.ok (), { workerStarted := false, workerStopped := false, zkeyDeleted := false
                       createdDoc := none, circuitUpdate := none }⟩ :=
  wrong_state_no_error_no_mutation okRequest okEnvConfig ⟨CeremonyState.OPENED⟩ c3Circuit
    c7Participant okWorker 7 20 1000 rfl rfl (by decide) (by decide) (by decide) (by decide)
    (by decide) (by simp [CeremonyState.OPENED, CeremonyState.CLOSED])

/-- Claim C8: the code propagates worker failures instead of recording an
invalid contribution and stopping the worker: when starting the worker, the
command, or the output retrieval fails, the handler aborts with the error,
creates no contribution document, and never calls stop. -/
theorem worker_failure_propagates :
    ((c8Run c8WorkerStartFail).outcome = Except.error VerifyError.workerStartError ∧
      (c8Run c8WorkerStartFail).effects.workerStopped = false ∧
      (c8Run c8WorkerStartFail).effects.createdDoc = none) ∧
    ((c8Run c8WorkerCommandFail).outcome = Except.error VerifyError.workerCommandError ∧
      (c8Run c8WorkerCommandFail).effects.workerStarted = true ∧
      (c8Run c8WorkerCommandFail).effects.workerStopped = false ∧
      (c8Run c8WorkerCommandFail).effects.createdDoc = none) ∧
    ((c8Run c8WorkerRetrieveFail).outcome = Except.error VerifyError.workerOutputError ∧
      (c8Run c8WorkerRetrieveFail).effects.workerStarted = true ∧
      (c8Run c8WorkerRetrieveFail).effects.workerStopped = false ∧
      (c8Run c8WorkerRetrieveFail).effects.createdDoc = none) :=
  ⟨⟨rfl, rfl, rfl⟩, ⟨rfl, rfl, rfl, rfl⟩, ⟨rfl, rfl, rfl, rfl⟩⟩
/-- Claim C9 fails on the code: re-invoking the coordinator with the same
ReadyForFirst before/after pair, on the Store the first invocation produced
and with the same server timestamp, is not a no-op: the first invocation sets
`currentContributor` to the participant, the second wipes it to the empty
string while the queue still holds the participant. -/
theorem reinvocation_counterexample :
    c9Store1.queue.currentContributor = "p" ∧
      c9Store2.queue.currentContributor = "" ∧
      c9Store2.queue.contributors = ["p"] ∧
      c9Store1 ≠ c9Store2 := by
  exact ⟨by decide, by decide, by decide, by decide⟩

/-- Claim C9 (amended): re-invoking the coordinator with the same before/after
pair is not idempotent in general: after a ReadyForFirst pair promotes the
participant on an empty queue (Scenario A), the re-invocation takes the
resume branch and overwrites the circuit's `currentContributor` with the
empty string, leaving the contributors list unchanged — a net Store change. -/
theorem reinvocation_not_idempotent (pid cid : String) (before after : ParticipantSnapshot)
    (now now2 : ℚ) (store : Store)
    (hne : pid ≠ "") (hstatus : after.status = ParticipantStatus.READY)
    (hprog : before.contributionProgress = 0)
    (hq : store.queue.contributors = []) (hcc : store.queue.currentContributor = "") :
    (coordinateCeremonyParticipant pid cid before after now store).queue.currentContributor =
        pid ∧
      (coordinateCeremonyParticipant pid cid before after now2
          (coordinateCeremonyParticipant pid cid before after now
            store)).queue.currentContributor = "" ∧
      (coordinateCeremonyParticipant pid cid before after now2
          (coordinateCeremonyParticipant pid cid before after now store)).queue.contributors =
        (coordinateCeremonyParticipant pid cid before after now store).queue.contributors := by
  rw [trigger_ready_dispatch pid cid before after now store hstatus hprog,
    trigger_ready_dispatch pid cid before after now2 _ hstatus hprog, hstatus]
  have ha := coordinate_scenario_a_eq pid ParticipantStatus.READY after.contributionStep now
    store hq hcc
  have hs1 : (coordinate pid ParticipantStatus.READY after.contributionStep true none now
      store).queue.currentContributor = pid := by rw [ha]
  have hr := coordinate_resume_eq pid after.contributionStep now2
    (coordinate pid ParticipantStatus.READY after.contributionStep true none now store) hs1 hne
  refine ⟨hs1, ?_, ?_⟩
  · rw [hr]
  · rw [hr]

/-- Witness for C9 (amended) at the concrete pair and empty-queue store. -/
theorem reinvocation_not_idempotent_witness :
    (coordinateCeremonyParticipant "p" "cer" c9Before c9After 7
        c9Store0).queue.currentContributor = "p" ∧
      (coordinateCeremonyParticipant "p" "cer" c9Before c9After 7
          (coordinateCeremonyParticipant "p" "cer" c9Before c9After 7
            c9Store0)).queue.currentContributor = "" ∧
      (coordinateCeremonyParticipant "p" "cer" c9Before c9After 7
          (coordinateCeremonyParticipant "p" "cer" c9Before c9After 7
            c9Store0)).queue.contributors =
        (coordinateCeremonyParticipant "p" "cer" c9Before c9After 7
          c9Store0).queue.contributors :=
  reinvocation_not_idempotent "p" "cer" c9Before c9After 7 7 c9Store0 (by decide) rfl rfl rfl
    rfl

/-- Claim C10: the resume branch overwrites the circuit's
`currentContributor` with the empty string while leaving the contributors
list unchanged, so the resuming participant stays at the head of the queue
but is no longer recorded as current contributor. -/
theorem resume_wipes_current_contributor (pid pStep : String) (now : ℚ) (store : Store)
    (hcc : store.queue.currentContributor = pid) (hne : pid ≠ "")
    (hhead : store.queue.contributors.head? = some pid) :
    (coordinate pid ParticipantStatus.READY pStep true none now
        store).queue.currentContributor = "" ∧
      (coordinate pid ParticipantStatus.READY pStep true none now store).queue.contributors =
        store.queue.contributors ∧
      (coordinate pid ParticipantStatus.READY pStep true none now
        store).queue.contributors.head? = some pid := by
  rw [coordinate_resume_eq pid pStep now store hcc hne]
  exact ⟨rfl, rfl, hhead⟩

/-- Witness for C10 at the concrete resume store. -/
theorem resume_wipes_current_contributor_witness :
    (coordinate "p" ParticipantStatus.READY "" true none 42
        c6Store).queue.currentContributor = "" ∧
      (coordinate "p" ParticipantStatus.READY "" true none 42 c6Store).queue.contributors =
        c6Store.queue.contributors ∧
      (coordinate "p" ParticipantStatus.READY "" true none 42
        c6Store).queue.contributors.head? = some "p" :=
  resume_wipes_current_contributor "p" "" 42 c6Store rfl (by decide) rfl
